import Mathlib

/-!
Shallow embedding of the duchess core (raw handle layer, thread-attachment
state machine, reference ownership layer, exception bridge), translated from
`src/raw.rs`, `src/thread.rs`, `src/ref_.rs`, `src/jvm.rs` and `src/error.rs`.

Raw native addresses are modelled as `Nat`, with `0` playing the role of the
null pointer.  Each `*Ptr::new` constructor from `raw.rs` wraps
`NonNull::new`, which yields `none` exactly on the null address; the wrapped
handle types are therefore modelled as subtypes of non-zero naturals.
Side effects on the JVM are modelled by explicit state passing and by traces
of the JNI entry points invoked (`JniCall`), and the outcomes of the
underlying runtime calls (attach/detach/GetEnv/NewLocalRef/...) are passed in
as explicit parameters, since they are decided by the foreign runtime.
-/

namespace Duchess

/-- A non-null VM handle: `JvmPtr(NonNull<JavaVM>)` from `raw.rs`. -/
def JvmPtr := { a : Nat // a ≠ 0 }

/-- `JvmPtr::new`: `NonNull::new(ptr).map(Self)` — `none` on the null address. -/
def JvmPtr.new (a : Nat) : Option JvmPtr :=
  if h : a = 0 then none else some ⟨a, h⟩

/-- A non-null per-thread environment handle: `EnvPtr` from `raw.rs`. -/
def EnvPtr := { a : Nat // a ≠ 0 }

/-- `EnvPtr::new`: `NonNull::new(ptr)?` — `none` on the null address. -/
def EnvPtr.new (a : Nat) : Option EnvPtr :=
  if h : a = 0 then none else some ⟨a, h⟩

/-- A non-null object handle: `ObjectPtr(NonNull<_jobject>)` from `raw.rs`. -/
def ObjectPtr := { a : Nat // a ≠ 0 }

/-- `ObjectPtr::new`: `NonNull::new(ptr).map(Self)` — `none` on the null address. -/
def ObjectPtr.new (a : Nat) : Option ObjectPtr :=
  if h : a = 0 then none else some ⟨a, h⟩

/-- A non-null method handle: `MethodPtr(NonNull<_jmethodID>)` from `raw.rs`. -/
def MethodPtr := { a : Nat // a ≠ 0 }

/-- `MethodPtr::new`: `NonNull::new(ptr).map(Self)` — `none` on the null address. -/
def MethodPtr.new (a : Nat) : Option MethodPtr :=
  if h : a = 0 then none else some ⟨a, h⟩

instance : DecidableEq JvmPtr := Subtype.instDecidableEq
instance : DecidableEq EnvPtr := Subtype.instDecidableEq
instance : DecidableEq ObjectPtr := Subtype.instDecidableEq
instance : DecidableEq MethodPtr := Subtype.instDecidableEq

/-- `jni_sys::JNI_TRUE` (a `jboolean`, i.e. a `u8`, equal to `1`). -/
def JNI_TRUE : Nat := 1

/-- `impl FromJniValue for bool` in `raw.rs`: `value == jni_sys::JNI_TRUE`.
The `jboolean` argument is modelled as its `u8` value. -/
def fromJniValueBool (v : Nat) : Bool := v == JNI_TRUE

/-- The `JValueGen::Bool(i) => i != 0` arm of `impl FromJValue for bool`
in `jvm.rs`. The `jboolean` payload is modelled as its `u8` value. -/
def fromJValueBool (v : Nat) : Bool := v != 0

/-- The JNI entry points the embedded operations may invoke, used to record
call traces of the effectful paths. -/
inductive JniCall where
  | NewLocalRef (obj : Nat)
  | DeleteLocalRef (obj : Nat)
  | NewGlobalRef (obj : Nat)
  | DeleteGlobalRef (obj : Nat)
  | ExceptionOccurred
  | ExceptionClear
  | GetEnv
  | AttachCurrentThread
  | DetachCurrentThread
deriving DecidableEq, Repr

/-- Phantom tag for `java::lang::Throwable`. -/
inductive Throwable : Type

/-- The error enum of `error.rs`, generic over the representation of the
carried thrown reference, exactly as `Error<T>` is in the source (the
`dynlib`-feature variant is compiled out there and omitted here). -/
inductive Error (T : Type) where
  | Thrown (t : T)
  | SliceTooLong (n : Nat)
  | NullDeref
  | NestedUsage
  | JvmInternal (msg : String)
deriving DecidableEq

/-- An owned local reference from `ref_.rs`: the environment handle that
created it plus the object handle; `T` is the phantom static type tag. -/
structure Local (T : Type) where
  env : EnvPtr
  obj : ObjectPtr
deriving DecidableEq

/-- An owned global reference from `ref_.rs`: the VM handle plus the object
handle; `T` is the phantom static type tag. -/
structure Global (T : Type) where
  jvm : JvmPtr
  obj : ObjectPtr
deriving DecidableEq

/-- Errors of the process-global result type `GlobalResult` of `error.rs`
(`Error<Global<Throwable>>`). -/
abbrev JErr : Type := Error (Global Throwable)

/-- The per-thread attachment state of `thread.rs` (`enum State`). -/
inductive TState where
  | InUse
  | Attached (env : EnvPtr)
  | Detached
deriving DecidableEq

/-- The guard of `thread.rs`: VM handle, environment handle, and whether the
attachment is permanent. -/
structure AttachGuard where
  jvm : JvmPtr
  env : EnvPtr
  permanent : Bool
deriving DecidableEq

/-- `attached_or` from `thread.rs`, with the thread-local cell made an
explicit state argument and the closure `f` (whose only effect is the
`jvm.attach_thread()` call, decided by the runtime) passed as its result.
`state.replace(State::InUse)` makes the new state `InUse` in every branch
except the `Detached` branch with failing `f`, which rolls it back. -/
def attached_or (jvm : JvmPtr) (f : Except JErr AttachGuard) (s : TState) :
    Except JErr AttachGuard × TState :=
  match s with
  | .Attached env => (.ok ⟨jvm, env, true⟩, .InUse)
  | .InUse => (.error .NestedUsage, .InUse)
  | .Detached =>
      match f with
      | .error e => (.error e, .Detached)
      | .ok g => (.ok g, .InUse)

/-- `attach_permanently` from `thread.rs`: `attached_or` with a closure that
builds a permanent guard around `jvm.attach_thread()?`, whose runtime-decided
outcome is the parameter `attachRes`. -/
def attach_permanently (jvm : JvmPtr) (attachRes : Except JErr EnvPtr)
    (s : TState) : Except JErr AttachGuard × TState :=
  attached_or jvm (attachRes.map fun env => ⟨jvm, env, true⟩) s

/-- `attach` from `thread.rs`: like `attach_permanently` but the guard built
by the closure is transient (`permanent: false`). -/
def attach (jvm : JvmPtr) (attachRes : Except JErr EnvPtr)
    (s : TState) : Except JErr AttachGuard × TState :=
  attached_or jvm (attachRes.map fun env => ⟨jvm, env, false⟩) s

/-- `impl Drop for AttachGuard` from `thread.rs`, with the thread-local cell
an explicit state argument and the runtime-decided outcome of
`jvm.detach_thread()` the parameter `detachRes`; returns the new thread-local
state and the trace of JNI calls made.  A permanent guard stores
`Attached(env)` back (asserting the old state was `InUse`) without any
runtime call; a transient guard calls `DetachCurrentThread` and sets the
state to `Detached` only when that call succeeded (on failure it just prints,
leaving the state unchanged). -/
def AttachGuard.dropGuard (g : AttachGuard) (detachRes : Except JErr Unit)
    (s : TState) : TState × List JniCall :=
  if g.permanent then (.Attached g.env, [])
  else
    match detachRes with
    | .ok _ => (.Detached, [.DetachCurrentThread])
    | .error _ => (s, [.DetachCurrentThread])

/-- The per-environment JNI exception state: the raw address of the pending
exception object, with `0` meaning the pending-exception flag is unset
(`ExceptionOccurred` returns null). -/
structure JniEnvState where
  pending : Nat
deriving DecidableEq

/-- `check_exception` from `error.rs`: invoke `ExceptionOccurred`; if the
returned `jobject` is non-null (`ObjectPtr::new` succeeds), invoke
`ExceptionClear` and return the thrown object wrapped as an owned local
reference inside `Error::Thrown`; otherwise return success.  Returns the
result together with the updated environment state. -/
def check_exception (env : EnvPtr) (s : JniEnvState) :
    Except (Error (Local Throwable)) Unit × JniEnvState :=
  match ObjectPtr.new s.pending with
  | some thrown => (.error (.Thrown ⟨env, thrown⟩), ⟨0⟩)
  | none => (.ok (), s)

/-- Outcome of evaluating a piece of Rust code that may panic:
`.panicked` models a `panic` (here, `Option::unwrap` applied to `None`). -/
inductive PanicOr (α : Type) where
  | panicked
  | ok (a : α)
deriving DecidableEq

/-- `Local::new` from `ref_.rs` (and equivalently `Jvm::local` from
`jvm.rs`): invokes `NewLocalRef` on the source object's handle; the raw
result `newRefRaw` (null, i.e. `0`, when the runtime is out of reference
slots) is passed through `NonNull::new(..).unwrap()`, which panics on null.
Returns the outcome plus the trace of JNI calls made. -/
def Local.new (T : Type) (env : EnvPtr) (obj : ObjectPtr) (newRefRaw : Nat) :
    PanicOr (Local T) × List JniCall :=
  (match ObjectPtr.new newRefRaw with
   | some p => .ok ⟨env, p⟩
   | none => .panicked,
   [.NewLocalRef obj.val])

/-- `Global::new` from `ref_.rs` (and equivalently `Jvm::global` from
`jvm.rs`): invokes `NewGlobalRef`; the raw result is passed through
`NonNull::new(..).unwrap()`, which panics on null. -/
def Global.new (T : Type) (jvm : JvmPtr) (_env : EnvPtr) (obj : ObjectPtr)
    (newRefRaw : Nat) : PanicOr (Global T) × List JniCall :=
  (match ObjectPtr.new newRefRaw with
   | some p => .ok ⟨jvm, p⟩
   | none => .panicked,
   [.NewGlobalRef obj.val])

/-- The compile-time `Upcast` relation of `cast.rs`: `R : Upcast<S>` states
that `S` is a statically-verified supertype of `R`.  Its content is decided
by the generated bindings; only its presence matters here. -/
class Upcast (R : Type) (S : Type) : Prop

/-- `Local::upcast` from `ref_.rs`: rebuilds the reference via `from_raw`
with the same environment handle and the same object handle, changing only
the phantom type tag; no JNI call is made (empty trace). -/
def Local.upcast {R : Type} (l : Local R) (S : Type) [Upcast R S] :
    Local S × List JniCall :=
  (⟨l.env, l.obj⟩, [])

/-- `Global::upcast` from `ref_.rs`: rebuilds the reference via `from_raw`
with the same VM handle and the same object handle, changing only the
phantom type tag; no JNI call is made (empty trace). -/
def Global.upcast {R : Type} (g : Global R) (S : Type) [Upcast R S] :
    Global S × List JniCall :=
  (⟨g.jvm, g.obj⟩, [])

/-- `Deref for Local` from `ref_.rs`: the borrowed view produced by
`T::from_raw(self.obj)` is identified by the object handle it wraps. -/
def Local.deref {T : Type} (l : Local T) : ObjectPtr := l.obj

/-- `Deref for Global` from `ref_.rs`: the borrowed view produced by
`T::from_raw(self.obj)` is identified by the object handle it wraps. -/
def Global.deref {T : Type} (g : Global T) : ObjectPtr := g.obj

/-- `impl Drop for Local` from `ref_.rs`: invokes `DeleteLocalRef` on the
owned object handle using the creating environment handle. -/
def Local.dropRef {T : Type} (l : Local T) : List JniCall :=
  [.DeleteLocalRef l.obj.val]

/-- `impl Drop for Global` from `ref_.rs`: obtain some valid environment
handle — `jvm.env()` (`GetEnv`, whose runtime-decided outcome is
`getEnvRes`: `some` when the current thread is attached, `none` on
`JNI_EDETACHED`) and, if the thread is detached, `jvm.attach_thread()`
(outcome `attachRes`) — then invoke `DeleteGlobalRef`.  All failures are
swallowed (the function only returns a trace, never an error), and no
detach call is ever made afterwards. -/
def Global.dropRef {T : Type} (g : Global T)
    (getEnvRes : Except JErr (Option EnvPtr)) (attachRes : Except JErr EnvPtr) :
    List JniCall :=
  match getEnvRes with
  | .ok (some _) => [.GetEnv, .DeleteGlobalRef g.obj.val]
  | .ok none =>
      match attachRes with
      | .ok _ => [.GetEnv, .AttachCurrentThread, .DeleteGlobalRef g.obj.val]
      | .error _ => [.GetEnv, .AttachCurrentThread]
  | .error _ => [.GetEnv]

/-- Phantom tag for `java::lang::Object`, a supertype of `Throwable`. -/
inductive JLangObject : Type

instance : Upcast Throwable JLangObject := ⟨⟩

/-- A concrete non-null VM handle. -/
def jvm0 : JvmPtr := ⟨1, by decide⟩

/-- A concrete non-null environment handle. -/
def env0 : EnvPtr := ⟨2, by decide⟩

/-- A concrete non-null object handle. -/
def obj0 : ObjectPtr := ⟨7, by decide⟩

/-- A concrete local reference to a `Throwable`. -/
def localT0 : Local Throwable := ⟨env0, obj0⟩

/-- A concrete global reference to a `Throwable`. -/
def globalT0 : Global Throwable := ⟨jvm0, obj0⟩

/-- Claim C3 as stated: a transient guard obtained by `attach` on a
`Detached`-state thread detaches on drop, except that when the thread was
already attached by an external actor (`ext = true`) the drop performs no
detach.  The flag `ext` is ghost state: the code in `thread.rs` receives no
such information. -/
def c3_claim_as_stated (ext : Bool) (jvm : JvmPtr) (env : EnvPtr)
    (detachRes : Except JErr Unit) : Prop :=
  ∀ g, (attach jvm (.ok env) .Detached).1 = .ok g →
    (if ext then JniCall.DetachCurrentThread ∉ (g.dropGuard detachRes .InUse).2
     else JniCall.DetachCurrentThread ∈ (g.dropGuard detachRes .InUse).2)

/-- The transitions permitted by the spec's attachment lifecycle:
`Detached → InUse` on call-scope entry, `InUse → Attached` /
`InUse → Detached` on exit, and `Attached → InUse` on nested re-entry. -/
inductive AllowedStep : TState → TState → Prop where
  | enter : AllowedStep .Detached .InUse
  | exitPerm (env : EnvPtr) : AllowedStep .InUse (.Attached env)
  | exitTrans : AllowedStep .InUse .Detached
  | reenter (env : EnvPtr) : AllowedStep (.Attached env) .InUse

end Duchess

namespace Duchess

/-- C9: each raw handle constructor (`JvmPtr::new`, `EnvPtr::new`,
`ObjectPtr::new`, `MethodPtr::new`) returns `none` on the null address, and
every handle value of any of the four wrapper types carries a non-null
address, so absence is always an explicit `Option` and never a null handle. -/
theorem raw_handle_null_is_none :
    (JvmPtr.new 0 = none ∧ EnvPtr.new 0 = none ∧
     ObjectPtr.new 0 = none ∧ MethodPtr.new 0 = none)
    ∧ ((∀ p : JvmPtr, p.val ≠ 0) ∧ (∀ p : EnvPtr, p.val ≠ 0) ∧
       (∀ p : ObjectPtr, p.val ≠ 0) ∧ (∀ p : MethodPtr, p.val ≠ 0))
    ∧ ((∀ a p, JvmPtr.new a = some p → p.val = a) ∧
       (∀ a p, ObjectPtr.new a = some p → p.val = a)) := by
  refine ⟨⟨rfl, rfl, rfl, rfl⟩, ⟨fun p => p.property, fun p => p.property,
    fun p => p.property, fun p => p.property⟩, ⟨?_, ?_⟩⟩ <;>
  · intro a p h
    by_cases ha : a = 0
    · subst ha; simp [JvmPtr.new, ObjectPtr.new] at h
    · simp [JvmPtr.new, ObjectPtr.new, ha] at h
      subst h; rfl

/-- Witness for C9: evaluating the constructors at the concrete addresses
`0` and `5`. -/
theorem raw_handle_null_is_none_witness :
    ObjectPtr.new 0 = none ∧ (∀ p, ObjectPtr.new 5 = some p → p.val = 5) :=
  ⟨raw_handle_null_is_none.1.2.2.1,
   fun p => raw_handle_null_is_none.2.2.2 5 p⟩

/-- C10 counterexample: at the non-canonical `jboolean` value `2`, the
conversion in `raw.rs` (`v == JNI_TRUE`) yields `false` while the conversion
in `jvm.rs` (`v != 0`) yields `true`, so the two snapshots disagree. -/
theorem bool_conversions_disagree_at_two :
    fromJniValueBool 2 = false ∧ fromJValueBool 2 = true ∧
    fromJniValueBool 2 ≠ fromJValueBool 2 := by
  refine ⟨rfl, rfl, ?_⟩; decide

/-- C10 (amended): the two `jboolean → bool` conversions agree exactly on the
canonical values `0` (`JNI_FALSE`) and `1` (`JNI_TRUE`): for every `jboolean`
value `v < 2`, `raw.rs`'s `v == JNI_TRUE` equals `jvm.rs`'s `v != 0`. -/
theorem bool_conversions_agree_on_canonical (v : Nat) (h : v < 2) :
    fromJniValueBool v = fromJValueBool v := by
  interval_cases v <;> rfl

/-- Witness for the amended C10 at the concrete canonical values `0` and `1`. -/
theorem bool_conversions_agree_on_canonical_witness :
    fromJniValueBool 0 = fromJValueBool 0 ∧ fromJniValueBool 1 = fromJValueBool 1 :=
  ⟨bool_conversions_agree_on_canonical 0 (by decide),
   bool_conversions_agree_on_canonical 1 (by decide)⟩

end Duchess

namespace Duchess

/-- C1: `Local::upcast` and `Global::upcast` make no runtime call (empty JNI
trace), leave the concrete object handle (and the creating env/VM handle,
i.e. ownership) unchanged, dereferencing through the supertype view yields
the pointer-identical object handle as dereferencing the original, and the
destruction path of the upcast reference releases the very same handle. -/
theorem upcast_is_free {R S : Type} [Upcast R S] (l : Local R) (g : Global R) :
    ((l.upcast S).2 = [] ∧ (l.upcast S).1.obj = l.obj ∧ (l.upcast S).1.env = l.env
      ∧ (l.upcast S).1.deref = l.deref ∧ (l.upcast S).1.dropRef = l.dropRef)
    ∧ ((g.upcast S).2 = [] ∧ (g.upcast S).1.obj = g.obj ∧ (g.upcast S).1.jvm = g.jvm
      ∧ (g.upcast S).1.deref = g.deref
      ∧ ∀ ge ar, (g.upcast S).1.dropRef ge ar = g.dropRef ge ar) :=
  ⟨⟨rfl, rfl, rfl, rfl, rfl⟩, ⟨rfl, rfl, rfl, rfl, fun _ _ => rfl⟩⟩

/-- Witness for C1: the upcast `Throwable → java.lang.Object` on concrete
references preserves the dereferenced handle. -/
theorem upcast_is_free_witness :
    (localT0.upcast JLangObject).1.deref = localT0.deref
    ∧ (globalT0.upcast JLangObject).1.deref = globalT0.deref :=
  ⟨(upcast_is_free localT0 globalT0).1.2.2.2.1,
   (upcast_is_free localT0 globalT0).2.2.2.2.1⟩

/-- C2, code evaluated at the failing input: when `NewLocalRef` /
`NewGlobalRef` returns the null handle (`0`, e.g. out of memory for
reference slots), `Local::new` and `Global::new` panic via
`NonNull::new(..).unwrap()` instead of returning an error. -/
theorem duplication_panics_on_null_handle :
    (Local.new Throwable env0 obj0 0).1 = PanicOr.panicked
    ∧ (Global.new Throwable jvm0 env0 obj0 0).1 = PanicOr.panicked :=
  ⟨rfl, rfl⟩

/-- C3 counterexample: with the thread already attached by an external actor
(ghost flag `ext = true`), the claim as stated requires the transient
guard's drop to perform no detach; but the drop of the guard produced by
`attach` on a `Detached`-state thread invokes `DetachCurrentThread`
unconditionally, refuting the claim at this concrete input. -/
theorem transient_drop_detaches_despite_external_attach :
    ¬ c3_claim_as_stated true jvm0 env0 (.ok ()) := by
  intro h
  have h2 := h ⟨jvm0, env0, false⟩ rfl
  simp [AttachGuard.dropGuard] at h2

/-- C3 (amended): dropping a transient (non-permanent) attach guard invokes
the runtime's `DetachCurrentThread` entry point as soon as the scope exits,
unconditionally — `thread.rs` does not track whether the thread was already
attached by an external actor, so no exception for externally-attached
threads exists. -/
theorem transient_drop_always_detaches (g : AttachGuard)
    (detachRes : Except JErr Unit) (s : TState) (h : g.permanent = false) :
    (g.dropGuard detachRes s).2 = [JniCall.DetachCurrentThread] := by
  cases detachRes <;> simp [AttachGuard.dropGuard, h]

/-- Witness for the amended C3: the concrete transient guard's drop trace is
exactly the detach call. -/
theorem transient_drop_always_detaches_witness :
    ((⟨jvm0, env0, false⟩ : AttachGuard).dropGuard (.ok ()) .InUse).2
      = [JniCall.DetachCurrentThread] :=
  transient_drop_always_detaches ⟨jvm0, env0, false⟩ (.ok ()) .InUse rfl

/-- C4: if the pending-exception flag is set (`pending ≠ 0`),
`check_exception` returns a `Thrown` error wrapping the thrown object as an
owned local reference and clears the flag, so that an immediately following
second call returns success; if the flag is unset, it returns success and
changes nothing. -/
theorem check_exception_clears_exactly_once (env : EnvPtr) (s : JniEnvState) :
    (∀ h : s.pending ≠ 0,
      check_exception env s
        = (.error (.Thrown ⟨env, ⟨s.pending, h⟩⟩), ⟨0⟩)
      ∧ (check_exception env (check_exception env s).2).1 = .ok ())
    ∧ (s.pending = 0 → check_exception env s = (.ok (), s)) := by
  constructor
  · intro h
    have hs : check_exception env s
        = (.error (.Thrown ⟨env, ⟨s.pending, h⟩⟩), ⟨0⟩) := by
      simp [check_exception, ObjectPtr.new, h]
    exact ⟨hs, by rw [hs]; rfl⟩
  · intro h
    simp [check_exception, ObjectPtr.new, h]

/-- Witness for C4 at a concrete environment whose pending flag holds the
object at address `5`: the error is returned once and the second check
succeeds. -/
theorem check_exception_clears_exactly_once_witness :
    check_exception env0 ⟨5⟩
      = (.error (.Thrown ⟨env0, ⟨5, by decide⟩⟩), ⟨0⟩)
    ∧ (check_exception env0 (check_exception env0 ⟨5⟩).2).1 = .ok () :=
  (check_exception_clears_exactly_once env0 ⟨5⟩).1 (by decide)

/-- C5: on a thread whose state is `InUse`, both `attach` and
`attach_permanently` return the `NestedUsage` error (no deadlock: they are
total functions) and leave the thread-local state `InUse` (the in-progress
scope's state is preserved); and once the enclosing scope's guard is
dropped (its detach, if any, succeeding), a subsequent `attach` on the
thread succeeds. -/
theorem nested_attach_fails_cleanly (jvm : JvmPtr) (env : EnvPtr)
    (ares : Except JErr EnvPtr) (g : AttachGuard) :
    attach jvm ares .InUse = (.error .NestedUsage, .InUse)
    ∧ attach_permanently jvm ares .InUse = (.error .NestedUsage, .InUse)
    ∧ ∃ g', (attach jvm (.ok env) (g.dropGuard (.ok ()) .InUse).1).1 = .ok g' := by
  refine ⟨rfl, rfl, ?_⟩
  by_cases hp : g.permanent
  · exact ⟨⟨jvm, g.env, true⟩, by simp [AttachGuard.dropGuard, hp, attach, attached_or, Except.map]⟩
  · exact ⟨⟨jvm, env, false⟩, by simp [AttachGuard.dropGuard, hp, attach, attached_or, Except.map]⟩

/-- Witness for C5 at concrete handles and a concrete enclosing transient
guard. -/
theorem nested_attach_fails_cleanly_witness :
    attach jvm0 (.ok env0) .InUse = (.error .NestedUsage, .InUse)
    ∧ attach_permanently jvm0 (.ok env0) .InUse = (.error .NestedUsage, .InUse)
    ∧ ∃ g', (attach jvm0 (.ok env0)
        ((AttachGuard.mk jvm0 env0 false).dropGuard (.ok ()) .InUse).1).1 = .ok g' :=
  nested_attach_fails_cleanly jvm0 env0 (.ok env0) ⟨jvm0, env0, false⟩

/-- C6: when the underlying `AttachCurrentThread` call fails on a `Detached`
thread, both `attach` and `attach_permanently` surface the error as their
result and roll the thread-local state back to `Detached` — it is never
left `InUse`. -/
theorem attach_failure_rolls_back (jvm : JvmPtr) (e : JErr) :
    attach jvm (.error e) .Detached = (.error e, .Detached)
    ∧ attach_permanently jvm (.error e) .Detached = (.error e, .Detached) :=
  ⟨rfl, rfl⟩

/-- C7: every operation of the attachment state machine either leaves the
state unchanged or takes a transition of the permitted lifecycle
(`AllowedStep`); and the specific transitions hold: scope entry moves
`Detached` to `InUse`, a permanent guard's drop moves `InUse` to
`Attached`, a transient guard's drop (with successful detach) moves `InUse`
to `Detached`, re-entry on an `Attached` thread moves to `InUse`, and the
guard produced by that re-entry restores `Attached` with the same
environment handle on drop. -/
theorem attachment_state_machine_lifecycle (jvm : JvmPtr) (env : EnvPtr)
    (ares : Except JErr EnvPtr) (dres : Except JErr Unit) (g : AttachGuard)
    (s : TState) :
    ((attach jvm ares s).2 = s ∨ AllowedStep s (attach jvm ares s).2)
    ∧ ((attach_permanently jvm ares s).2 = s
        ∨ AllowedStep s (attach_permanently jvm ares s).2)
    ∧ ((g.dropGuard dres .InUse).1 = .InUse
        ∨ AllowedStep .InUse (g.dropGuard dres .InUse).1)
    ∧ (attach jvm (.ok env) .Detached).2 = .InUse
    ∧ (g.permanent = true → (g.dropGuard dres .InUse).1 = .Attached g.env)
    ∧ (g.permanent = false → (g.dropGuard (.ok ()) .InUse).1 = .Detached)
    ∧ (attach jvm ares (.Attached env)).2 = .InUse
    ∧ (∀ g', (attach jvm ares (.Attached env)).1 = .ok g' →
        (g'.dropGuard dres .InUse).1 = .Attached env) := by
  refine ⟨?_, ?_, ?_, rfl, ?_, ?_, rfl, ?_⟩
  · cases s with
    | InUse => exact Or.inl rfl
    | Attached e => exact Or.inr (AllowedStep.reenter e)
    | Detached =>
        cases ares with
        | error e => exact Or.inl rfl
        | ok e => exact Or.inr AllowedStep.enter
  · cases s with
    | InUse => exact Or.inl rfl
    | Attached e => exact Or.inr (AllowedStep.reenter e)
    | Detached =>
        cases ares with
        | error e => exact Or.inl rfl
        | ok e => exact Or.inr AllowedStep.enter
  · by_cases hp : g.permanent
    · exact Or.inr (by simpa [AttachGuard.dropGuard, hp] using AllowedStep.exitPerm g.env)
    · cases dres with
      | ok u => exact Or.inr (by simpa [AttachGuard.dropGuard, hp] using AllowedStep.exitTrans)
      | error e => exact Or.inl (by simp [AttachGuard.dropGuard, hp])
  · intro hp
    simp [AttachGuard.dropGuard, hp]
  · intro hp
    simp [AttachGuard.dropGuard, hp]
  · intro g' hg
    have : g' = ⟨jvm, env, true⟩ := by
      simpa [attach, attached_or] using hg.symm
    subst this
    simp [AttachGuard.dropGuard]

/-- Witness for C7 at concrete handles, a concrete permanent guard and a
concrete state. -/
theorem attachment_state_machine_lifecycle_witness :
    ((AttachGuard.mk jvm0 env0 true).dropGuard (.ok ()) .InUse).1
        = .Attached env0
    ∧ ((AttachGuard.mk jvm0 env0 false).dropGuard (.ok ()) .InUse).1
        = .Detached :=
  ⟨(attachment_state_machine_lifecycle jvm0 env0 (.ok env0) (.ok ())
      ⟨jvm0, env0, true⟩ .Detached).2.2.2.2.1 rfl,
   (attachment_state_machine_lifecycle jvm0 env0 (.ok env0) (.ok ())
      ⟨jvm0, env0, false⟩ .Detached).2.2.2.2.2.1 rfl⟩

/-- C8, code evaluated at the failing input and in general: dropping a
global reference never surfaces an error (the drop path returns only a
trace; `GetEnv`/attach failures are swallowed), performs `DeleteGlobalRef`
through the existing environment handle when the thread is attached, and on
a detached thread (the failing input: `GetEnv` reports `JNI_EDETACHED`,
`AttachCurrentThread` succeeds) attaches and deletes — but never invokes
`DetachCurrentThread` afterwards, so the attachment is not transient as the
claim states. -/
theorem global_drop_any_thread_no_detach :
    Global.dropRef globalT0 (.ok none) (.ok env0)
      = [.GetEnv, .AttachCurrentThread, .DeleteGlobalRef obj0.val]
    ∧ (∀ (ge : Except JErr (Option EnvPtr)) (ar : Except JErr EnvPtr),
        JniCall.DetachCurrentThread ∉ globalT0.dropRef ge ar)
    ∧ (∀ env ar, globalT0.dropRef (.ok (some env)) ar
        = [.GetEnv, .DeleteGlobalRef obj0.val]) := by
  refine ⟨rfl, ?_, fun env ar => rfl⟩
  intro ge ar
  match ge with
  | .ok (some e) => simp [Global.dropRef]
  | .ok none =>
      match ar with
      | .ok e => simp [Global.dropRef]
      | .error e => simp [Global.dropRef]
  | .error e => simp [Global.dropRef]

end Duchess
